import Mathlib

/-!
Verification development for the go-game-client repository: shallow Lean
embeddings of the State Store (`state.go`, `unnamed/part_006`), the
BizHawk IPC transport (`bizhawk_ipc.go` and the spec's Command Transport),
the realtime-channel reconnect loop (`pusher_client.go`), the event
dispatcher (`unnamed/part_005`, `unnamed/part_000`), and the heartbeat
and watchdog tasks (`main.go`).

Wall-clock instants and durations are modelled as integers (seconds);
Go's zero `time.Time` is modelled as the integer 0 where the code tests
`IsZero`.
-/

namespace GoGameClient

/-! ### Realtime Channel Client: reconnect backoff
Embeds `PusherClient.ConnectAndListen` (`pusher_client.go`, second
revision): `backoff` starts at `time.Second`; on a failed attempt the
client sleeps `backoff` and then doubles it when it is below 30 seconds;
on a successful attempt `backoff` is reset to one second. Durations are
in whole seconds. -/

/-- One failure's update of the backoff duration: the code runs
`if backoff < 30*time.Second then backoff *= 2`. -/
def nextBackoff (b : Nat) : Nat := if b < 30 then b * 2 else b

/-- The list of sleeps performed by `n` consecutive failed attempts
starting from backoff state `b`, paired by `backoffRun` with the final
backoff state. -/
def waitsFrom : Nat → Nat → List Nat
  | _, 0 => []
  | b, n + 1 => b :: waitsFrom (nextBackoff b) n

/-- One iteration of the `ConnectAndListen` retry loop: on failure
(`ok = false`) the client sleeps the current backoff and doubles it
below 30 s; on success the backoff is reset to one second and no sleep
happens. Returns (sleeps performed, new backoff state). -/
def backoffStep (b : Nat) (ok : Bool) : List Nat × Nat :=
  if ok then ([], 1) else ([b], nextBackoff b)

/-- The retry loop over a list of attempt outcomes (`true` = connect
succeeded), collecting every sleep performed, from backoff state `b`. -/
def backoffRun : Nat → List Bool → List Nat × Nat
  | b, [] => ([], b)
  | b, o :: os =>
    let s := backoffStep b o
    let r := backoffRun s.2 os
    (s.1 ++ r.1, r.2)

theorem waitsFrom_32 (k : Nat) : waitsFrom 32 k = List.replicate k 32 := by
  induction k with
  | zero => rfl
  | succ n ih =>
    simp only [waitsFrom, nextBackoff]
    norm_num
    rw [List.replicate_succ, ih]

theorem backoffRun_replicate_false (b n : Nat) :
    (backoffRun b (List.replicate n false)).1 = waitsFrom b n := by
  induction n generalizing b with
  | zero => rfl
  | succ m ih =>
    simp only [List.replicate, backoffRun, backoffStep, waitsFrom]
    simp [ih]

/-- C3 counterexample: starting from a fresh client, six consecutive
connection failures make the code sleep 1, 2, 4, 8, 16 and then 32
seconds — the sixth wait is 32 s, not the 30 s cap the claim states,
and it exceeds 30 s. -/
theorem c3_backoff_counterexample :
    (backoffRun 1 (List.replicate 6 false)).1 = [1, 2, 4, 8, 16, 32] ∧
      ¬ (32 ≤ 30) := by
  constructor
  · rfl
  · decide

/-- C3 (amended): the backoff waits between consecutive failed connection
attempts are 1 s, 2 s, 4 s, 8 s, 16 s, and then 32 s for every subsequent
consecutive failure (the doubling guard `backoff < 30 s` lets 16 s double
to 32 s, where it stays); the backoff state is reset to 1 s by any
successful connection. -/
theorem c3_backoff_amended :
    (∀ k : Nat,
        (backoffRun 1 (List.replicate (5 + k) false)).1 =
          [1, 2, 4, 8, 16] ++ List.replicate k 32) ∧
      (∀ b : Nat, ∀ os : List Bool, backoffRun b (true :: os) = backoffRun 1 os) := by
  constructor
  · intro k
    rw [backoffRun_replicate_false]
    have hstep : ∀ (b m : Nat), waitsFrom b (m + 1) = b :: waitsFrom (nextBackoff b) m :=
      fun _ _ => rfl
    have h5 : 5 + k = k + 1 + 1 + 1 + 1 + 1 := by omega
    rw [h5, hstep, hstep, hstep, hstep, hstep]
    norm_num [nextBackoff]
    rw [waitsFrom_32 k]
  · intro b os
    rfl

/-! ### State Store (latest revision)
Embeds `ClientState` from `unnamed/part_006`: fields `ping`, `connected`,
`currentGame`, `lastHeartbeat`, `ready`, `lastError`, `stateAt`, `state`,
and the setters that emit `StateEvent`s to subscribers. `time.Now()`
stamps on events are not modelled; `Old`/`New` are modelled by the tagged
union `EvVal` mirroring the dynamically typed `interface` fields. -/

/-- The `StateEventType` constants of `unnamed/part_006`. -/
inductive EvType where
  | pingUpdated
  | connectedEv
  | disconnectedEv
  | currentGameChanged
  | readyChanged
  | stateChanged
  | stateTimeChanged
  deriving DecidableEq, Repr

/-- A dynamically typed event value (`Old`/`New` are `interface` values in
the Go code): an int, a bool, a string, or a `time.Time` instant. -/
inductive EvVal where
  | iv (n : Int)
  | bv (b : Bool)
  | sv (s : String)
  | tv (t : Int)
  deriving DecidableEq, Repr

/-- A `StateEvent` sent to subscribers (timestamp not modelled). -/
structure StateEvent where
  typ : EvType
  old : EvVal
  new : EvVal
  deriving DecidableEq, Repr

/-- The fields of `ClientState` in `unnamed/part_006` (subscriber map kept
separately). -/
structure ClientStateV2 where
  ping : Int
  connected : Bool
  currentGame : String
  lastHeartbeat : Int
  ready : Bool
  lastError : String
  stateAt : Int
  state : String
  deriving DecidableEq, Repr

/-- `ClientState.SetPing`: updates `ping` and stamps `lastHeartbeat` with
the current instant, emitting one `ping_updated` event. -/
def setPing (s : ClientStateV2) (p : Int) (now : Int) :
    ClientStateV2 × List StateEvent :=
  ({ s with ping := p, lastHeartbeat := now },
   [⟨.pingUpdated, .iv s.ping, .iv p⟩])

/-- `ClientState.SetConnected`: the event type is `connected` or
`disconnected` according to the new value. -/
def setConnected (s : ClientStateV2) (c : Bool) :
    ClientStateV2 × List StateEvent :=
  ({ s with connected := c },
   [⟨if c then .connectedEv else .disconnectedEv, .bv s.connected, .bv c⟩])

/-- `ClientState.SetCurrentGame`. -/
def setCurrentGame (s : ClientStateV2) (name : String) :
    ClientStateV2 × List StateEvent :=
  ({ s with currentGame := name },
   [⟨.currentGameChanged, .sv s.currentGame, .sv name⟩])

/-- `ClientState.SetReady`. -/
def setReady (s : ClientStateV2) (r : Bool) :
    ClientStateV2 × List StateEvent :=
  ({ s with ready := r },
   [⟨.readyChanged, .bv s.ready, .bv r⟩])

/-- `ClientState.SetState` (`unnamed/part_006` lines 158-179): updates
`stateAt` and `state` and emits two events. The Go code fills the second
event as `Type: EventStateChanged, Old: oldState, New: t` — the `New`
field carries the time argument `t`, not the new `state` string; the
embedding reproduces that faithfully. -/
def setState (s : ClientStateV2) (t : Int) (state : String) :
    ClientStateV2 × List StateEvent :=
  ({ s with stateAt := t, state := state },
   [⟨.stateTimeChanged, .tv s.stateAt, .tv t⟩,
    ⟨.stateChanged, .sv s.state, .tv t⟩])

/-- C5: evaluating `SetState` on a store whose scheduled state is
`"idle"`, with arguments `t = 5`, `state = "running"`, shows the code
emits a `state_changed` event whose `New` value is the time `5`, not the
new state string `"running"` — and a single set call emits two events.
The spec ("each carrying correct old/new values", one event per set call)
is the clear intent; the `New: t` in the Go source is a slip. -/
theorem c5_setstate_wrong_new_value :
    (setState ⟨0, false, "g", 0, false, "", 0, "idle"⟩ 5 "running").2 =
        [⟨.stateTimeChanged, .tv 0, .tv 5⟩,
         ⟨.stateChanged, .sv "idle", .tv 5⟩] ∧
      EvVal.tv 5 ≠ EvVal.sv "running" ∧
      ((setState ⟨0, false, "g", 0, false, "", 0, "idle"⟩ 5 "running").2.length ≠ 1) := by
  refine ⟨rfl, by decide, by decide⟩

/-! ### Command Transport: HELLO handshake (C4)
Modelled from the spec: the revision of `bizhawk_ipc.go` holding the
line-oriented command protocol (`HELLO` -> `SYNC`, `PING` -> `PONG`,
`ACK`/`NACK` resolution) is not among the captured source revisions —
`src/bizhawk_ipc.go` only has an earlier close-detection reader — while
its callers (`SendSync` in `unnamed/part_005`, `NewBizhawkIPC(port,
state)` in `main.go`) reference it. The reader's per-line dispatch is
modelled from spec section 4.2. -/

/-- A decoded line received from the emulator peer (spec section 4.2
protocol). -/
inductive PeerLine where
  | hello
  | ping (tok : String)
  | ack (id : Nat)
  | nack (id : Nat) (reason : String)
  | other (raw : String)
  deriving DecidableEq, Repr

/-- A line the transport pushes back to the peer in response. -/
inductive PeerOut where
  | sync (game : String) (phase : String) (phaseAt : Int)
  | pong (tok : String)
  | resolveAck (id : Nat)
  | resolveNack (id : Nat) (reason : String)
  deriving DecidableEq, Repr

/-- Modelled from the spec: the per-connection reader's handling of one
line from the peer, given the State Store snapshot taken when the line is
processed. `HELLO` pushes a `SYNC` carrying the snapshot's current game,
scheduled phase name and scheduled time; `PING` is answered with `PONG`;
`ACK`/`NACK` resolve the matching pending command; anything else is
logged and dropped. -/
def handlePeerLine (snap : ClientStateV2) : PeerLine → List PeerOut
  | .hello => [.sync snap.currentGame snap.state snap.stateAt]
  | .ping tok => [.pong tok]
  | .ack id => [.resolveAck id]
  | .nack id r => [.resolveNack id r]
  | .other _ => []

/-- Counts the `SYNC` commands in a list of transport replies. -/
def countSync (l : List PeerOut) : Nat :=
  l.countP fun o =>
    match o with
    | .sync _ _ _ => true
    | _ => false

/-- C4: a `HELLO` line from the peer produces exactly one `SYNC` command,
whose current game, scheduled phase name and scheduled time are exactly
the values of the State Store snapshot taken when the `HELLO` was
processed. -/
theorem c4_hello_triggers_one_sync (snap : ClientStateV2) :
    handlePeerLine snap .hello =
        [.sync snap.currentGame snap.state snap.stateAt] ∧
      countSync (handlePeerLine snap .hello) = 1 := by
  exact ⟨rfl, rfl⟩

/-! ### State Store persistence (`state.go`, first revision)
Embeds `ClientState` of `src/state.go`: the store with a `startAt` field,
its `Snapshot` (which exports `startAt` as a nullable pointer, `nil` when
the time is the zero value), `SaveToFile` and `LoadFromFile`. JSON
serialization of the snapshot is modelled as faithful storage of the
snapshot record; the file system is modelled by `SnapshotFile` with the
two error cases `LoadFromFile` distinguishes (open failure, decode
failure). -/

/-- The fields of `ClientState` in `src/state.go` (`startAt = 0` models
Go's zero `time.Time`). -/
structure StateV1 where
  ping : Int
  connected : Bool
  currentGame : String
  lastHeartbeat : Int
  ready : Bool
  lastError : String
  startAt : Int
  deriving DecidableEq, Repr

/-- `ClientStateSnapshot` of `src/state.go`: `StartAt` is a nullable
pointer, `none` when the store's `startAt` is the zero time. -/
structure SnapV1 where
  ping : Int
  connected : Bool
  currentGame : String
  lastHeartbeat : Int
  ready : Bool
  lastError : String
  startAt : Option Int
  deriving DecidableEq, Repr

/-- `ClientState.Snapshot` (`src/state.go` lines 170-188). -/
def snapshotV1 (s : StateV1) : SnapV1 :=
  { ping := s.ping
    connected := s.connected
    currentGame := s.currentGame
    lastHeartbeat := s.lastHeartbeat
    ready := s.ready
    lastError := s.lastError
    startAt := if s.startAt = 0 then none else some s.startAt }

/-- The field assignments performed by `ClientState.LoadFromFile` once the
snapshot has been decoded (`src/state.go` lines 214-226). -/
def applySnapV1 (s : StateV1) (snap : SnapV1) : StateV1 :=
  { s with
    ping := snap.ping
    connected := snap.connected
    currentGame := snap.currentGame
    lastHeartbeat := snap.lastHeartbeat
    ready := snap.ready
    lastError := snap.lastError
    startAt :=
      match snap.startAt with
      | some t => t
      | none => 0 }

/-- What `LoadFromFile` finds at a path: no file (`os.Open` fails), a file
whose contents do not decode, or a decoded snapshot. -/
inductive SnapshotFile where
  | missing
  | unparsable
  | parsed (snap : SnapV1)
  deriving DecidableEq, Repr

/-- `ClientState.LoadFromFile` (`src/state.go` lines 204-228): returns the
error (if any) and the resulting store. Both error returns happen before
any field is assigned, so the store is returned unchanged. -/
def loadFromFile (s : StateV1) (f : SnapshotFile) : Option String × StateV1 :=
  match f with
  | .missing => (some "open error", s)
  | .unparsable => (some "decode error", s)
  | .parsed snap => (none, applySnapV1 s snap)

/-- `ClientState.SaveToFile` (`src/state.go` lines 191-201): writes the
JSON encoding of the current snapshot; modelled as the file that decodes
back to that snapshot. -/
def saveToFile (s : StateV1) : SnapshotFile :=
  .parsed (snapshotV1 s)

/-- C8: `LoadFromFile` is best-effort and atomic on error — for a missing
or unparsable file it returns an error and leaves every field of the
store exactly as it was. -/
theorem c8_load_error_leaves_state (s : StateV1) (f : SnapshotFile)
    (h : f = .missing ∨ f = .unparsable) :
    (loadFromFile s f).1.isSome = true ∧ (loadFromFile s f).2 = s := by
  rcases h with h | h <;> subst h <;> exact ⟨rfl, rfl⟩

/-- C8 witness: loading a missing file errors and preserves the store. -/
theorem c8_load_error_leaves_state_witness :
    (loadFromFile ⟨7, true, "g", 3, true, "e", 9⟩ .missing).1.isSome = true ∧
      (loadFromFile ⟨7, true, "g", 3, true, "e", 9⟩ .missing).2 =
        ⟨7, true, "g", 3, true, "e", 9⟩ :=
  c8_load_error_leaves_state ⟨7, true, "g", 3, true, "e", 9⟩ .missing (Or.inl rfl)

/-- C9: snapshot persistence round-trips — loading (into any store `s2`)
the file just written by `SaveToFile` on store `s1` succeeds and yields a
store whose snapshot equals `s1`'s snapshot. -/
theorem c9_save_load_roundtrip (s1 s2 : StateV1) :
    (loadFromFile s2 (saveToFile s1)).1 = none ∧
      snapshotV1 (loadFromFile s2 (saveToFile s1)).2 = snapshotV1 s1 := by
  refine ⟨rfl, ?_⟩
  simp only [saveToFile, loadFromFile, applySnapV1, snapshotV1]
  by_cases h : s1.startAt = 0 <;> simp [h]

/-! ### State Store subscriptions (C10)
Embeds `Subscribe`/`Unsubscribe` of `src/state.go` (lines 66-85): the
subscriber set is the Go map `subs` (modelled as a `Finset` of channel
identifiers, since map keys are unique), and closing a channel is
recorded in a multiset so that double-closes (a runtime panic in Go)
would be visible as a count above one. -/

/-- The subscription bookkeeping of `ClientState`: the registered channel
set and the multiset of close operations performed. -/
structure SubsState where
  subs : Finset Nat
  closedOps : Multiset Nat
  deriving DecidableEq

/-- `ClientState.Unsubscribe` (`src/state.go` lines 78-85): only when the
channel is still registered is it removed from the map and closed. -/
def unsubscribe (st : SubsState) (ch : Nat) : SubsState :=
  if ch ∈ st.subs then ⟨st.subs.erase ch, ch ::ₘ st.closedOps⟩ else st

/-- C10: `Unsubscribe` is idempotent — a repeated call with the same
handle is a no-op (subscriber set and close records unchanged, so the
channel is closed at most once, and exactly once when it was
registered). -/
theorem c10_unsubscribe_idempotent (st : SubsState) (ch : Nat) :
    unsubscribe (unsubscribe st ch) ch = unsubscribe st ch ∧
      (unsubscribe st ch).closedOps.count ch =
        st.closedOps.count ch + (if ch ∈ st.subs then 1 else 0) := by
  have hnot : ∀ t : SubsState, ch ∉ t.subs → unsubscribe t ch = t := by
    intro t ht
    simp [unsubscribe, ht]
  have h2 : ch ∉ (unsubscribe st ch).subs := by
    by_cases h : ch ∈ st.subs <;> simp [unsubscribe, h, Finset.not_mem_erase]
  constructor
  · exact hnot _ h2
  · by_cases h : ch ∈ st.subs <;> simp [unsubscribe, h]

/-! ### Command Transport: send on a dead connection (C6)
Embeds `BizhawkIPC.SendLine` (`src/bizhawk_ipc.go` lines 102-117): the
connection pointer is read under the lock; when it is `nil` the call
returns the error `bizhawk not connected` at once, otherwise the line
plus a newline is written to the connection. No queue exists anywhere in
the transport. -/

/-- The transport's mutable connection state: `none` models a `nil`
`conn` pointer; a live connection carries the lines written so far. -/
structure IPCState where
  conn : Option (List String)
  deriving DecidableEq, Repr

/-- `BizhawkIPC.SendLine`: returns (error if any, resulting transport
state). -/
def sendLine (st : IPCState) (line : String) : Option String × IPCState :=
  match st.conn with
  | none => (some "bizhawk not connected", st)
  | some sent => (none, ⟨some (sent ++ [line])⟩)

/-- C6: a send while no emulator connection is live returns the
"not connected" error synchronously and leaves the transport state
untouched — in particular nothing is queued for later delivery. -/
theorem c6_send_unconnected_errors (st : IPCState) (line : String)
    (h : st.conn = none) :
    (sendLine st line).1 = some "bizhawk not connected" ∧
      (sendLine st line).2 = st := by
  cases st with
  | mk conn =>
    cases conn with
    | none => exact ⟨rfl, rfl⟩
    | some sent => simp at h

/-- C6 witness: sending `SWAP` on a fresh unconnected transport errors
and changes nothing. -/
theorem c6_send_unconnected_errors_witness :
    (sendLine ⟨none⟩ "SWAP|1|g").1 = some "bizhawk not connected" ∧
      (sendLine ⟨none⟩ "SWAP|1|g").2 = (⟨none⟩ : IPCState) :=
  c6_send_unconnected_errors ⟨none⟩ "SWAP|1|g" rfl

/-! ### Command Transport: correlated send path (C1)
Modelled from the spec: the `sendCommand` implementation with correlation
ids, pending entries and the once-per-second resend scanner is absent
from the captured source revisions (`src/bizhawk_ipc.go` only holds the
earlier fire-and-forget `SendLine`); modelled from spec section 4.2.
Time is in whole seconds; a command's send instant is normalized to 0 and
the scanner runs at instants 1, 2, 3, ... -/

/-- The fixed retry budget of a pending command (spec: "a fixed retry
budget (3 attempts)"). -/
def retryBudget : Nat := 3

/-- The resend interval in seconds (spec: "1 second resend interval"). -/
def resendIntervalSec : Nat := 1

/-- The overall wait bound in seconds (spec: "5 second overall wait"). -/
def overallWaitSec : Nat := 5

/-- A pending entry of the Command Transport: correlation id, literal
command text, remaining retry budget, instant of the last send
attempt. -/
structure PendingCmd where
  id : Nat
  text : String
  retriesLeft : Nat
  lastSend : Nat
  deriving DecidableEq, Repr

/-- The transport's command bookkeeping visible to the send path: the
next correlation id to allocate. -/
structure Transport where
  nextId : Nat
  deriving DecidableEq, Repr

/-- Modelled from the spec: `sendCommand` allocates a new correlation id
(the monotonically increasing `nextId`), registers a pending entry with
the fixed retry budget and the current instant as last-send time, and
blocks the caller on the entry's completion signal. Returns the
registered entry and the updated bookkeeping. -/
def sendCommand (tr : Transport) (text : String) (now : Nat) :
    PendingCmd × Transport :=
  (⟨tr.nextId, text, retryBudget, now⟩, ⟨tr.nextId + 1⟩)

/-- The fate of one sent command while no ACK or NACK arrives: still
pending, or resolved with a synthetic NACK at some instant. -/
inductive CmdOutcome where
  | waiting (p : PendingCmd)
  | syntheticNack (t : Nat)
  deriving DecidableEq, Repr

/-- Modelled from the spec: one pass of the periodic resend task at
instant `t` over a command that has received no ACK/NACK — an entry whose
last send is at least the resend interval old is rewritten when it still
has retry budget, and failed with a synthetic NACK when the budget is
exhausted. -/
def scanAt (t : Nat) : CmdOutcome → CmdOutcome
  | .waiting p =>
    if p.lastSend + resendIntervalSec ≤ t then
      match p.retriesLeft with
      | r + 1 => .waiting ⟨p.id, p.text, r, t⟩
      | 0 => .syntheticNack t
    else .waiting p
  | .syntheticNack u => .syntheticNack u

/-- Runs the resend scanner at instants 1, 2, ..., n in order. -/
def runScans : Nat → CmdOutcome → CmdOutcome
  | 0, o => o
  | n + 1, o => scanAt (n + 1) (runScans n o)

/-- C1: `sendCommand` allocates a fresh correlation id (the transport's
`nextId`, which then increments), registers a pending entry carrying the
3-attempt retry budget and a 1-second resend interval, and — when no ACK
or NACK ever arrives — the scanner resolves the command with a synthetic
NACK at instant 4, within the 5-second overall wait, so the blocked
caller is always released. -/
theorem c1_send_resolves_within_bound (tr : Transport) (text : String) :
    (sendCommand tr text 0).1 =
        ⟨tr.nextId, text, retryBudget, 0⟩ ∧
      (sendCommand tr text 0).2.nextId = tr.nextId + 1 ∧
      retryBudget = 3 ∧ resendIntervalSec = 1 ∧
      runScans overallWaitSec (.waiting (sendCommand tr text 0).1) =
        .syntheticNack 4 ∧
      4 ≤ overallWaitSec := by
  refine ⟨rfl, rfl, rfl, rfl, ?_, by decide⟩
  simp only [sendCommand, overallWaitSec, retryBudget, resendIntervalSec,
    runScans, scanAt]
  norm_num

/-! ### Heartbeat and watchdog (C7)
Embeds `App.startWatchdog` and `App.startHeartbeatLoop`
(`src/main.go` lines 146-187) together with `API.Heartbeat`
(`unnamed/part_000` lines 101-126): the watchdog ticks every 5 seconds
and compares `now - lastHeartbeat` against 15 seconds; the heartbeat loop
on success calls `SetPing`, which stamps `lastHeartbeat = now`, and on
failure only logs. The watchdog ticker fires at instants 5, 10, 15, ...
after process start. -/

/-- One watchdog tick (`src/main.go` lines 172-184): acting on the
snapshot's `LastHeartbeat` and `Connected`, it returns the store's
connectivity after the tick. -/
def watchdogTick (now lastHeartbeat : Int) (connected : Bool) : Bool :=
  if now - lastHeartbeat > 15 then
    (if connected then false else connected)
  else
    (if connected then connected else true)

/-- One heartbeat attempt at instant `now` acting on
(`lastHeartbeat`, `connected`): success runs `SetPing`, stamping
`lastHeartbeat := now`; failure is logged only, mutating nothing — in
particular it never touches `connected`. -/
def heartbeatStep (ok : Bool) (now lastHeartbeat : Int) (connected : Bool) :
    Int × Bool :=
  if ok then (now, connected) else (lastHeartbeat, connected)

theorem tick_in_window (m : Int) (hm : 5 ≤ m) :
    ∃ k : Nat, m - 5 < 5 * ((k : Int) + 1) ∧ 5 * ((k : Int) + 1) ≤ m := by
  have h5 : (0 : Int) < 5 := by norm_num
  have hq1 : 1 ≤ m / 5 := by
    rw [Int.le_ediv_iff_mul_le h5]
    omega
  refine ⟨(m / 5 - 1).toNat, ?_, ?_⟩ <;>
  · have ht : ((m / 5 - 1).toNat : Int) = m / 5 - 1 :=
      Int.toNat_of_nonneg (by omega)
    have hdm : 5 * (m / 5) + m % 5 = m := Int.ediv_add_emod m 5
    have hr0 : 0 ≤ m % 5 := Int.emod_nonneg m (by norm_num)
    have hr5 : m % 5 < 5 := Int.emod_lt_of_pos m h5
    rw [ht]
    omega

/-- C7: (a) at any watchdog tick where more than 15 seconds have elapsed
since the last successful heartbeat, connectivity is false after the
tick; (b) at any tick where at most 15 seconds have elapsed (in
particular the first tick after a successful heartbeat, at most 5 seconds
later), connectivity is true after the tick; (c) for any crossing of the
15-second threshold there is a tick instant `5*(k+1)` within 5 seconds
after the crossing, and one within 5 seconds after any successful
heartbeat, so each flip happens within one tick; (d) a failed heartbeat
never changes connectivity (or the heartbeat stamp) by itself. -/
theorem c7_watchdog_flips_within_one_tick :
    (∀ (now lastHeartbeat : Int) (c : Bool),
        lastHeartbeat + 15 < now → watchdogTick now lastHeartbeat c = false) ∧
      (∀ (now lastHeartbeat : Int) (c : Bool),
        now - lastHeartbeat ≤ 15 → watchdogTick now lastHeartbeat c = true) ∧
      (∀ lastHeartbeat : Int, 0 ≤ lastHeartbeat →
        ∃ k : Nat, lastHeartbeat + 15 < 5 * ((k : Int) + 1) ∧
          5 * ((k : Int) + 1) ≤ lastHeartbeat + 20) ∧
      (∀ h : Int, 0 ≤ h →
        ∃ k : Nat, h < 5 * ((k : Int) + 1) ∧ 5 * ((k : Int) + 1) ≤ h + 5) ∧
      (∀ (now lastHeartbeat : Int) (c : Bool),
        heartbeatStep false now lastHeartbeat c = (lastHeartbeat, c)) := by
  refine ⟨?_, ?_, ?_, ?_, ?_⟩
  · intro now lastHeartbeat c h
    have hgt : now - lastHeartbeat > 15 := by omega
    cases c <;> simp [watchdogTick, hgt]
  · intro now lastHeartbeat c h
    have hle : ¬ (now - lastHeartbeat > 15) := by omega
    cases c <;> simp [watchdogTick, hle]
  · intro lastHeartbeat h
    obtain ⟨k, hk1, hk2⟩ := tick_in_window (lastHeartbeat + 20) (by omega)
    exact ⟨k, by omega, hk2⟩
  · intro h hh
    obtain ⟨k, hk1, hk2⟩ := tick_in_window (h + 5) (by omega)
    exact ⟨k, by omega, hk2⟩
  · intro now lastHeartbeat c
    simp [heartbeatStep]

/-- C7 witness: with the last heartbeat at instant 0, the tick at 20
marks disconnected, the tick at 5 (after a success at 0) marks connected,
tick instants exist in both windows, and a failed heartbeat at 10 changes
nothing. -/
theorem c7_watchdog_witness :
    watchdogTick 20 0 true = false ∧
      watchdogTick 5 0 false = true ∧
      (∃ k : Nat, (0 : Int) + 15 < 5 * ((k : Int) + 1) ∧
        5 * ((k : Int) + 1) ≤ (0 : Int) + 20) ∧
      (∃ k : Nat, (0 : Int) < 5 * ((k : Int) + 1) ∧
        5 * ((k : Int) + 1) ≤ (0 : Int) + 5) ∧
      heartbeatStep false 10 0 true = (0, true) := by
  refine ⟨?_, ?_, ?_, ?_, ?_⟩
  · exact c7_watchdog_flips_within_one_tick.1 20 0 true (by norm_num)
  · exact c7_watchdog_flips_within_one_tick.2.1 5 0 false (by norm_num)
  · exact c7_watchdog_flips_within_one_tick.2.2.1 0 (by norm_num)
  · exact c7_watchdog_flips_within_one_tick.2.2.2.1 0 (by norm_num)
  · exact c7_watchdog_flips_within_one_tick.2.2.2.2 10 0 true

/-! ### Dispatcher: swap events (C2)
Embeds two revisions of the swap handler. `Handlers.Swap`
(`unnamed/part_005` lines 34-60) forwards a `SWAP` command over the IPC,
updates the current game, then launches a goroutine that calls
`SwapComplete` at once under a 5-second context timeout. The earlier
`handleSwap` (`unnamed/part_000` lines 395-428) writes a
`swap_trigger.txt` file, updates the current game, and its goroutine
sleeps until the target instant before notifying under a 10-second
timeout. Actions are tagged with the instant at which they are
performed. -/

/-- The decoded swap payload: round number, target time (epoch seconds)
and game name. -/
structure SwapPayload where
  roundNumber : Int
  swapTime : Int
  gameName : String
  deriving DecidableEq, Repr

/-- An observable action of a swap handler, tagged with the instant it is
performed at. -/
inductive SwapAction where
  | sendSwapLine (targetAt : Int) (game : String) (doneAt : Int)
  | writeTriggerFile (targetAt : Int) (game : String) (doneAt : Int)
  | storeCurrentGame (game : String) (doneAt : Int)
  | notifyComplete (round : Int) (attemptAt : Int) (timeoutSec : Int)
  deriving DecidableEq, Repr

/-- `Handlers.Swap` (`unnamed/part_005`): payloads with an empty game
name or a zero swap time are rejected with a log line; otherwise the
`SWAP` IPC command and the State Store update happen at the current
instant, and the completion notification is attempted immediately
(5-second timeout) — the goroutine performs no wait. -/
def handlersSwap (now : Int) (p : SwapPayload) : List SwapAction :=
  if p.gameName = "" ∨ p.swapTime = 0 then []
  else
    [.sendSwapLine p.swapTime p.gameName now,
     .storeCurrentGame p.gameName now,
     .notifyComplete p.roundNumber now 5]

/-- `handleSwap` (`unnamed/part_000`): writes the trigger file and
updates the State Store at the current instant; the goroutine sleeps
`swapTime - now` seconds when the target is in the future, so the
notification is attempted at `max now swapTime` (10-second timeout). -/
def handleSwapOld (now : Int) (p : SwapPayload) : List SwapAction :=
  [.writeTriggerFile p.swapTime p.gameName now,
   .storeCurrentGame p.gameName now,
   .notifyComplete p.roundNumber (max now p.swapTime) 10]

/-- C2 counterexample: a swap event received at instant 0 with target
time 10 makes `Handlers.Swap` attempt the swap-complete notification at
instant 0, strictly before the target time — refuting "attempts the
swap-complete notification to the server at or after the target time,
never before it". -/
theorem c2_swap_counterexample :
    handlersSwap 0 ⟨7, 10, "g"⟩ =
        [.sendSwapLine 10 "g" 0,
         .storeCurrentGame "g" 0,
         .notifyComplete 7 0 5] ∧
      (0 : Int) < 10 := by
  constructor
  · rfl
  · norm_num

/-- C2 (amended): for every valid decoded swap event, `Handlers.Swap`
forwards the `SWAP` command with target time and game name immediately
and updates the current game in the State Store immediately, but launches
the swap-complete notification immediately as well (under a 5-second
timeout), regardless of the target time; only the earlier `handleSwap`
revision delays the notification to `max now swapTime`, which is at or
after the target time. -/
theorem c2_swap_amended (now : Int) (p : SwapPayload)
    (hg : ¬ p.gameName = "") (ht : ¬ p.swapTime = 0) :
    handlersSwap now p =
        [.sendSwapLine p.swapTime p.gameName now,
         .storeCurrentGame p.gameName now,
         .notifyComplete p.roundNumber now 5] ∧
      handleSwapOld now p =
        [.writeTriggerFile p.swapTime p.gameName now,
         .storeCurrentGame p.gameName now,
         .notifyComplete p.roundNumber (max now p.swapTime) 10] ∧
      p.swapTime ≤ max now p.swapTime := by
  refine ⟨?_, rfl, le_max_right _ _⟩
  simp [handlersSwap, hg, ht]

/-- C2 witness: the amended statement at instant 3 on a valid payload. -/
theorem c2_swap_amended_witness :
    handlersSwap 3 ⟨7, 10, "g"⟩ =
        [.sendSwapLine 10 "g" 3,
         .storeCurrentGame "g" 3,
         .notifyComplete 7 3 5] ∧
      handleSwapOld 3 ⟨7, 10, "g"⟩ =
        [.writeTriggerFile 10 "g" 3,
         .storeCurrentGame "g" 3,
         .notifyComplete 7 (max 3 10) 10] ∧
      (10 : Int) ≤ max 3 10 :=
  c2_swap_amended 3 ⟨7, 10, "g"⟩ (by decide) (by decide)

end GoGameClient
